import Mathlib

/-!
Shallow embedding of `src/sz.py`: a script that fetches a housing-transaction
HTML table, reconstructs its rowspan-merged rows into flat records
(`fetch_web_data`), groups them at 小计/总计 marker rows (`process_data`) and
mails the result.  Machine-level concerns (HTTP, SMTP, pandas DataFrames) are
modelled by explicit data: a table is a list of rows, a row a list of cells, a
DataFrame a list of records, and fallible I/O an `Except` value supplied as a
parameter.
-/

namespace Sz

/-- One HTML table cell as seen by the row walk in `fetch_web_data`:
`isTh` models `cell.name == 'th'`, `rowspan` models the presence and integer
value of the `rowspan` attribute (`'rowspan' in cell.attrs` /
`int(cell['rowspan'])`), and `text` the whitespace-stripped text that the
`get_text(strip=True)` library call returns for the cell. -/
structure Cell where
  isTh : Bool
  rowspan : Option Int
  text : String
deriving DecidableEq, Repr

/-- A table row after `row.find_all(['th', 'td'])`: the list of its cells. -/
abbrev HtmlRow := List Cell

/-- The default cell used only to state list-index facts (`List.getD`). -/
def blankCell : Cell := ⟨false, none, ""⟩

/-- One flattened record appended to `raw_data` by `fetch_web_data`:
fields 区域 (region, `None`-able), 类型 (type), 套数 (count), 面积 (area). -/
structure RawRecord where
  region : Option String
  type : String
  count : String
  area : String
deriving DecidableEq, Repr

/-- The mutable state threaded through the row walk of `fetch_web_data`:
`current_region` (initially `None`) and `rowspan_left` (initially `0`). -/
structure RowSpanState where
  currentRegion : Option String
  rowspanLeft : Int
deriving DecidableEq, Repr

/-- `cells[0].name == 'th' and 'rowspan' in cells[0].attrs` for a row's first
cell; a row with no cells has no such header cell. -/
def rowSetsRegion (row : HtmlRow) : Bool :=
  match row with
  | [] => false
  | c :: _ => c.isTh && c.rowspan.isSome

/-- The state update at the top of each loop iteration of `fetch_web_data`:
a leading `th` cell with a `rowspan` attribute sets
`current_region = cells[0].get_text(strip=True)` and
`rowspan_left = int(cells[0]['rowspan']) - 1`; otherwise, when
`rowspan_left > 0`, it is decremented; otherwise the state is unchanged. -/
def updateState (st : RowSpanState) (c0 : Cell) : RowSpanState :=
  match (if c0.isTh then c0.rowspan else none) with
  | some n => ⟨some c0.text, n - 1⟩
  | none =>
    if st.rowspanLeft > 0 then ⟨st.currentRegion, st.rowspanLeft - 1⟩ else st

/-- The record built from a row by `fetch_web_data`: with `len(cells) >= 4`
the 类型/套数/面积 fields come from cells 1, 2, 3; with `len(cells) == 3`
they come from cells 0, 1, 2; otherwise no record is appended. -/
def rowRecord (region : Option String) (cells : List Cell) : Option RawRecord :=
  match cells with
  | _ :: c1 :: c2 :: c3 :: _ => some ⟨region, c1.text, c2.text, c3.text⟩
  | [c0, c1, c2] => some ⟨region, c0.text, c1.text, c2.text⟩
  | _ => none

/-- One iteration of the row loop of `fetch_web_data`: a row with no cells is
skipped (`continue`) without touching the state; otherwise the state is
updated from the first cell and a record is (possibly) emitted using the
updated `current_region`. -/
def step (st : RowSpanState) (row : HtmlRow) : RowSpanState × Option RawRecord :=
  match row with
  | [] => (st, none)
  | c0 :: _ =>
    let st' := updateState st c0
    (st', rowRecord st'.currentRegion row)

/-- The full row walk of `fetch_web_data` over the table's rows (the caller
drops the header row first), accumulating `raw_data` in order. -/
def reconstructRows (st : RowSpanState) : List HtmlRow → List RawRecord
  | [] => []
  | row :: rest =>
    match step st row with
    | (st', some r) => r :: reconstructRows st' rest
    | (st', none) => reconstructRows st' rest

/-- A transport-level or body-level failure inside the `try` block of
`fetch_web_data`: the `requests.get` call raising, `raise_for_status`
raising on a non-success status, or `decode(ENCODING)` raising. -/
inductive FetchError where
  | transport
  | httpStatus (code : Nat)
  | decodeFailure
deriving DecidableEq, Repr

/-- An HTTP response as used by `fetch_web_data`: its status code and its
body (kept abstract; only decoding is applied to it). -/
structure HttpResponse where
  statusCode : Nat
deriving DecidableEq, Repr

/-- The parsed document: `soup.find('table', id='ctl00_ContentPlaceHolder1_mytable')`
either finds the table (its list of `tr` rows, header row included) or
returns `None`. -/
structure HtmlPage where
  tableRows : Option (List HtmlRow)
deriving DecidableEq, Repr

/-- `response.raise_for_status()`: raises exactly for a 4xx client-error or
5xx server-error status (`400 ≤ status < 600`), as the `requests` library
implements it; any other status — 600 and above included — passes. -/
def raiseForStatus (r : HttpResponse) : Except FetchError HttpResponse :=
  if 400 ≤ r.statusCode ∧ r.statusCode < 600 then .error (.httpStatus r.statusCode)
  else .ok r

/-- The initial row-walk state of `fetch_web_data`:
`current_region = None`, `rowspan_left = 0`. -/
def initState : RowSpanState := ⟨none, 0⟩

/-- `fetch_web_data`, with the network and the HTML parser abstracted as
parameters: `transport` is the outcome of `requests.get` and `decode` the
outcome of decoding and parsing a successful response's body.  Any error in
the pipeline is caught by the `except` clause and yields the empty record
list (`pd.DataFrame()`); a missing table also yields the empty list; on
success the row walk runs over all rows but the first
(`table.find_all('tr')[1:]`). -/
def fetch_web_data (transport : Except FetchError HttpResponse)
    (decode : HttpResponse → Except FetchError HtmlPage) : List RawRecord :=
  match transport with
  | .error _ => []
  | .ok r =>
    match raiseForStatus r with
    | .error _ => []
    | .ok r =>
      match decode r with
      | .error _ => []
      | .ok page =>
        match page.tableRows with
        | none => []
        | some trs => reconstructRows initState (trs.drop 1)

/-- `row['类型'] in ['小计', '总计']`: the two marker labels that delimit
groups in `process_data`. -/
def isMarker (t : String) : Bool := t = "小计" || t = "总计"

/-- The grouping loop of `process_data`: `current` is the open
`current_group`; a marker-typed record closes the open group (when
non-empty) and opens a new group holding only that record; any other record
is appended to the open group; at the end the open group is closed when
non-empty. -/
def splitGroups : List RawRecord → List RawRecord → List (List RawRecord)
  | [], current => if current.isEmpty then [] else [current]
  | r :: rest, current =>
    if isMarker r.type then
      (if current.isEmpty then [] else [current]) ++ splitGroups rest [r]
    else
      splitGroups rest (current ++ [r])

/-- The groups `processed` built by `process_data` from the raw records. -/
def groups (rows : List RawRecord) : List (List RawRecord) := splitGroups rows []

/-- One output row of `process_data`: fields 区域, 小计套数 (subtotalCount),
小计面积 (subtotalArea), 住宅套数 (detailCount), 住宅面积 (detailArea). -/
structure SummaryRecord where
  region : Option String
  subtotalCount : String
  subtotalArea : String
  detailCount : String
  detailArea : String
deriving DecidableEq, Repr

/-- The emission step of `process_data`: a group with `len(group) >= 2`
yields one summary taking 区域/套数/面积 from `group[0]` (`main_row`) and
套数/面积 from `group[1]` (`house_row`); a shorter group yields nothing. -/
def summarize : List RawRecord → Option SummaryRecord
  | main :: house :: _ =>
    some ⟨main.region, main.count, main.area, house.count, house.area⟩
  | _ => none

/-- `process_data`: an empty input returns the empty DataFrame at once;
otherwise the records are grouped and each group of two or more records
emits one `SummaryRecord`, in group order. -/
def process_data (rows : List RawRecord) : List SummaryRecord :=
  if rows.isEmpty then [] else (groups rows).filterMap summarize

/-! Helper lemmas about the grouping loop of `process_data`. -/

/-- The groups produced by the loop concatenate back to the open group
followed by the remaining input: no record is lost or duplicated. -/
theorem splitGroups_flatten (rows : List RawRecord) :
    ∀ current, (splitGroups rows current).flatten = current ++ rows := by
  induction rows with
  | nil =>
    intro current
    cases current <;> simp [splitGroups]
  | cons r rest ih =>
    intro current
    cases hm : isMarker r.type
    · simp [splitGroups, hm, ih]
    · cases current <;> simp [splitGroups, hm, ih]

/-- Records in the tail of a produced group are never marker-typed, given
that the open group's tail has none: a marker always opens a new group. -/
theorem splitGroups_tail_no_marker (rows : List RawRecord) :
    ∀ current, (∀ r ∈ current.tail, isMarker r.type = false) →
      ∀ g ∈ splitGroups rows current, ∀ r ∈ g.tail, isMarker r.type = false := by
  induction rows with
  | nil =>
    intro current hcur g hg
    cases current with
    | nil => simp [splitGroups] at hg
    | cons c cs =>
      simp [splitGroups] at hg
      subst hg
      exact hcur
  | cons r rest ih =>
    intro current hcur g hg
    cases hm : isMarker r.type
    · rw [splitGroups, hm] at hg
      simp at hg
      refine ih (current ++ [r]) ?_ g hg
      intro x hx
      cases current with
      | nil => simp at hx
      | cons c cs =>
        simp at hx
        rcases hx with hx | hx
        · exact hcur x (by simp [hx])
        · subst hx; exact hm
    · rw [splitGroups, hm] at hg
      simp at hg
      cases current with
      | nil =>
        simp at hg
        exact ih [r] (by simp) g hg
      | cons c cs =>
        simp at hg
        rcases hg with hg | hg
        · subst hg; exact hcur
        · exact ih [r] (by simp) g hg

/-- The loop started with a non-empty open group yields a group list whose
first group keeps that open group's first record as its head. -/
theorem splitGroups_head_cons (rows : List RawRecord) :
    ∀ (h : RawRecord) (t : List RawRecord),
      ∃ t' rest', splitGroups rows (h :: t) = (h :: t') :: rest' := by
  induction rows with
  | nil =>
    intro h t
    exact ⟨t, [], by simp [splitGroups]⟩
  | cons r rest ih =>
    intro h t
    cases hm : isMarker r.type
    · obtain ⟨t', rest', heq⟩ := ih h (t ++ [r])
      exact ⟨t', rest', by rw [splitGroups, hm]; simpa using heq⟩
    · exact ⟨t, splitGroups rest [r], by rw [splitGroups, hm]; simp⟩

/-- Every produced group other than the first is headed by a marker record:
a new group is opened only at a marker. -/
theorem splitGroups_tail_marker_head (rows : List RawRecord) :
    ∀ current, ∀ g ∈ (splitGroups rows current).tail,
      ∃ h t, g = h :: t ∧ isMarker h.type = true := by
  induction rows with
  | nil =>
    intro current g hg
    cases current <;> simp [splitGroups] at hg
  | cons r rest ih =>
    intro current g hg
    cases hm : isMarker r.type
    · rw [splitGroups, hm] at hg
      simp at hg
      exact ih (current ++ [r]) g hg
    · rw [splitGroups, hm] at hg
      obtain ⟨t', rest', heq⟩ := splitGroups_head_cons rest r []
      cases current with
      | nil =>
        simp [heq] at hg
        exact ih [r] g (by rw [heq]; simpa using hg)
      | cons c cs =>
        simp [heq] at hg
        rcases hg with hg | hg
        · exact ⟨r, t', hg, hm⟩
        · exact ih [r] g (by rw [heq]; simpa using hg)

/-! Helper lemmas about the row walk of `fetch_web_data`. -/

/-- A record built by `rowRecord` carries exactly the region it was given. -/
theorem rowRecord_region : ∀ (region : Option String) (cells : List Cell) (q : RawRecord),
    rowRecord region cells = some q → q.region = region := by
  intro region cells q h
  rcases cells with _ | ⟨c0, _ | ⟨c1, _ | ⟨c2, _ | ⟨c3, cs⟩⟩⟩⟩ <;>
    simp [rowRecord] at h <;> simp [← h]

/-- A row whose first cell is not a `th` with a `rowspan` leaves
`current_region` unchanged. -/
theorem step_region_of_not_sets (st : RowSpanState) (row : HtmlRow)
    (h : rowSetsRegion row = false) :
    (step st row).1.currentRegion = st.currentRegion := by
  cases row with
  | nil => rfl
  | cons c0 cs =>
    have hnone : (if c0.isTh then c0.rowspan else none) = none := by
      cases hth : c0.isTh
      · simp
      · rw [rowSetsRegion, hth] at h
        simp at h
        simp [h]
    simp only [step, updateState, hnone]
    split <;> rfl

/-- A record emitted by `step` carries the post-update `current_region`. -/
theorem step_record_region (st : RowSpanState) (row : HtmlRow) (q : RawRecord)
    (h : (step st row).2 = some q) :
    q.region = (step st row).1.currentRegion := by
  cases row with
  | nil => simp [step] at h
  | cons c0 cs => exact rowRecord_region _ _ _ h

/-- Over rows none of which carries a region-setting header cell, every
emitted record carries the walk's starting `current_region`. -/
theorem reconstructRows_region_const : ∀ (rows : List HtmlRow) (st : RowSpanState),
    (∀ row ∈ rows, rowSetsRegion row = false) →
    ∀ q ∈ reconstructRows st rows, q.region = st.currentRegion := by
  intro rows
  induction rows with
  | nil =>
    intro st _ q hq
    simp [reconstructRows] at hq
  | cons row rest ih =>
    intro st hrows q hq
    have hrow : rowSetsRegion row = false := hrows row (by simp)
    have hrest : ∀ r ∈ rest, rowSetsRegion r = false := fun r hr => hrows r (by simp [hr])
    have hst : (step st row).1.currentRegion = st.currentRegion :=
      step_region_of_not_sets st row hrow
    rcases hstep : step st row with ⟨st', oq⟩
    rw [hstep] at hst
    cases oq with
    | none =>
      simp only [reconstructRows, hstep] at hq
      rw [← hst]
      exact ih st' hrest q hq
    | some r =>
      simp only [reconstructRows, hstep] at hq
      simp at hq
      rcases hq with hq | hq
      · subst hq
        have hr := step_record_region st row q (by rw [hstep])
        rw [hstep] at hr
        rw [hr]
        exact hst
      · rw [← hst]
        exact ih st' hrest q hq

/-! Claim theorems about the aggregator. -/

/-- C1: `process_data` splits its input into groups exactly at 小计/总计
marker records — the groups concatenate back to the input, no group carries
a marker after its head, and every group after the first is opened by a
marker — and each group of at least two records emits one `SummaryRecord`
taking region/count/area from the group's first record and count/area from
its second; in particular, on the two-record input of the claim it emits
exactly the stated single record. -/
theorem C1_aggregator_splits_at_markers :
    (∀ rows : List RawRecord, (groups rows).flatten = rows)
    ∧ (∀ rows : List RawRecord, ∀ g ∈ groups rows, ∀ r ∈ g.tail, isMarker r.type = false)
    ∧ (∀ rows : List RawRecord, ∀ g ∈ (groups rows).tail,
        ∃ h t, g = h :: t ∧ isMarker h.type = true)
    ∧ (∀ rows : List RawRecord, process_data rows = (groups rows).filterMap summarize)
    ∧ (∀ (main house : RawRecord) (rest : List RawRecord),
        summarize (main :: house :: rest)
          = some ⟨main.region, main.count, main.area, house.count, house.area⟩)
    ∧ process_data [⟨none, "总计", "100", "900"⟩, ⟨none, "其他", "80", "700"⟩]
        = [⟨none, "100", "900", "80", "700"⟩] := by
  refine ⟨?_, ?_, ?_, ?_, ?_, ?_⟩
  · intro rows
    simpa using splitGroups_flatten rows []
  · intro rows g hg
    exact splitGroups_tail_no_marker rows [] (by simp) g hg
  · intro rows g hg
    exact splitGroups_tail_marker_head rows [] g hg
  · intro rows
    cases rows <;> rfl
  · intro main house rest
    rfl
  · decide

/-- Witness for C1 at the claim's concrete input: its sole group sits in
`groups`, the second record is in that group's tail, and it is no marker. -/
theorem C1_aggregator_splits_at_markers_witness :
    [(⟨none, "总计", "100", "900"⟩ : RawRecord), ⟨none, "其他", "80", "700"⟩]
        ∈ groups [⟨none, "总计", "100", "900"⟩, ⟨none, "其他", "80", "700"⟩]
    ∧ (⟨none, "其他", "80", "700"⟩ : RawRecord)
        ∈ ([(⟨none, "总计", "100", "900"⟩ : RawRecord),
            ⟨none, "其他", "80", "700"⟩] : List RawRecord).tail
    ∧ isMarker (⟨none, "其他", "80", "700"⟩ : RawRecord).type = false :=
  ⟨by decide, by decide,
    C1_aggregator_splits_at_markers.2.1
      [⟨none, "总计", "100", "900"⟩, ⟨none, "其他", "80", "700"⟩]
      [⟨none, "总计", "100", "900"⟩, ⟨none, "其他", "80", "700"⟩]
      (by decide) ⟨none, "其他", "80", "700"⟩ (by decide)⟩

/-- C2 counterexample: an input holding no marker-typed record at all still
makes `process_data` emit a `SummaryRecord` (from the leading group), so
not every emitted record derives from a marker row, and the first record of
that emitted group is not marker-typed. -/
theorem C2_counterexample :
    isMarker "甲" = false ∧ isMarker "乙" = false
    ∧ process_data [⟨none, "甲", "1", "2"⟩, ⟨none, "乙", "3", "4"⟩]
        = [⟨none, "1", "2", "3", "4"⟩] := by
  decide

/-- C2 (amended): every `SummaryRecord` emitted by `process_data` is built
from two records standing consecutively in the input, and the first of the
two is marker-typed unless nothing precedes it in the input (the leading
group of records before the first marker). -/
theorem C2_summary_from_marker_row :
    ∀ (rows : List RawRecord) (s : SummaryRecord), s ∈ process_data rows →
      ∃ pre main house mid post,
        rows = pre ++ main :: house :: (mid ++ post)
        ∧ s = ⟨main.region, main.count, main.area, house.count, house.area⟩
        ∧ (isMarker main.type = true ∨ pre = ([] : List RawRecord)) := by
  intro rows s hs
  by_cases hre : rows.isEmpty
  · simp [process_data, hre] at hs
  · simp only [process_data, hre, if_false] at hs
    obtain ⟨g, hg, hsum⟩ := List.mem_filterMap.mp hs
    rcases g with _ | ⟨main, _ | ⟨house, mid⟩⟩
    · simp [summarize] at hsum
    · simp [summarize] at hsum
    · rw [summarize] at hsum
      have hseq : s = ⟨main.region, main.count, main.area, house.count, house.area⟩ :=
        (Option.some.inj hsum).symm
      obtain ⟨l1, l2, hsplit⟩ := List.append_of_mem hg
      have hflat : (groups rows).flatten = rows := by
        simpa using splitGroups_flatten rows []
      refine ⟨l1.flatten, main, house, mid, l2.flatten, ?_, hseq, ?_⟩
      · conv_lhs => rw [← hflat, hsplit]
        simp
      · cases l1 with
        | nil =>
          right
          simp
        | cons g1 l1' =>
          left
          have hmem : (main :: house :: mid) ∈ (groups rows).tail := by
            rw [hsplit]
            simp
          obtain ⟨h, t, hgeq, hm⟩ := splitGroups_tail_marker_head rows [] _ hmem
          injection hgeq with h1 h2
          rw [h1]
          exact hm

/-- Witness for C2 (amended) on a marker-led two-record input. -/
theorem C2_summary_from_marker_row_witness :
    (⟨none, "5", "6", "7", "8"⟩ : SummaryRecord)
        ∈ process_data [⟨none, "小计", "5", "6"⟩, ⟨none, "住宅", "7", "8"⟩]
    ∧ ∃ pre main house mid post,
        ([(⟨none, "小计", "5", "6"⟩ : RawRecord), ⟨none, "住宅", "7", "8"⟩] : List RawRecord)
          = pre ++ main :: house :: (mid ++ post)
        ∧ (⟨none, "5", "6", "7", "8"⟩ : SummaryRecord)
          = ⟨main.region, main.count, main.area, house.count, house.area⟩
        ∧ (isMarker main.type = true ∨ pre = ([] : List RawRecord)) :=
  ⟨by decide, C2_summary_from_marker_row _ _ (by decide)⟩

/-- C3: a `SummaryRecord` is emitted only from a group holding at least two
records; shorter groups emit nothing, a lone trailing marker group is
silently dropped, and the run never fails. -/
theorem C3_short_groups_dropped :
    (∀ (rows : List RawRecord) (s : SummaryRecord), s ∈ process_data rows →
      ∃ g ∈ groups rows, 2 ≤ g.length ∧ summarize g = some s)
    ∧ (∀ g : List RawRecord, g.length < 2 → summarize g = none)
    ∧ process_data [⟨none, "小计", "5", "6"⟩] = []
    ∧ process_data [⟨none, "小计", "5", "6"⟩, ⟨none, "住宅", "7", "8"⟩,
        ⟨none, "总计", "9", "10"⟩] = [⟨none, "5", "6", "7", "8"⟩] := by
  refine ⟨?_, ?_, by decide, by decide⟩
  · intro rows s hs
    by_cases hre : rows.isEmpty
    · simp [process_data, hre] at hs
    · simp only [process_data, hre, if_false] at hs
      obtain ⟨g, hg, hsum⟩ := List.mem_filterMap.mp hs
      rcases g with _ | ⟨main, _ | ⟨house, mid⟩⟩
      · simp [summarize] at hsum
      · simp [summarize] at hsum
      · exact ⟨main :: house :: mid, hg, by simp, hsum⟩
  · intro g hlen
    rcases g with _ | ⟨a, _ | ⟨b, t⟩⟩
    · rfl
    · rfl
    · simp at hlen
      omega

/-- Witness for C3 on the trailing-marker input: the one summary emitted
comes from a group of two or more records. -/
theorem C3_short_groups_dropped_witness :
    (⟨none, "5", "6", "7", "8"⟩ : SummaryRecord)
        ∈ process_data [⟨none, "小计", "5", "6"⟩, ⟨none, "住宅", "7", "8"⟩,
            ⟨none, "总计", "9", "10"⟩]
    ∧ ∃ g ∈ groups [(⟨none, "小计", "5", "6"⟩ : RawRecord), ⟨none, "住宅", "7", "8"⟩,
        ⟨none, "总计", "9", "10"⟩], 2 ≤ g.length
        ∧ summarize g = some ⟨none, "5", "6", "7", "8"⟩ :=
  ⟨by decide, C3_short_groups_dropped.1 _ _ (by decide)⟩

/-! Claim theorems about the row reconstructor. -/

/-- C4: a row of at least four cells yields a record whose 类型/套数/面积
come from cells 1, 2, 3; a row of exactly three cells takes them from cells
0, 1, 2; a row of fewer than three cells yields no record; and every loop
iteration's emission is exactly `rowRecord` at the updated state's region. -/
theorem C4_cell_position_selection :
    (∀ (region : Option String) (cells : List Cell), 4 ≤ cells.length →
      rowRecord region cells = some ⟨region, (cells.getD 1 blankCell).text,
        (cells.getD 2 blankCell).text, (cells.getD 3 blankCell).text⟩)
    ∧ (∀ (region : Option String) (cells : List Cell), cells.length = 3 →
      rowRecord region cells = some ⟨region, (cells.getD 0 blankCell).text,
        (cells.getD 1 blankCell).text, (cells.getD 2 blankCell).text⟩)
    ∧ (∀ (region : Option String) (cells : List Cell), cells.length < 3 →
      rowRecord region cells = none)
    ∧ (∀ (st : RowSpanState) (row : HtmlRow),
      (step st row).2 = rowRecord ((step st row).1.currentRegion) row) := by
  refine ⟨?_, ?_, ?_, ?_⟩
  · intro region cells h
    rcases cells with _ | ⟨c0, _ | ⟨c1, _ | ⟨c2, _ | ⟨c3, cs⟩⟩⟩⟩
    · simp at h
    · simp at h
    · simp at h
    · simp at h
    · rfl
  · intro region cells h
    rcases cells with _ | ⟨c0, _ | ⟨c1, _ | ⟨c2, _ | ⟨c3, cs⟩⟩⟩⟩
    · simp at h
    · simp at h
    · simp at h
    · rfl
    · simp at h
  · intro region cells h
    rcases cells with _ | ⟨c0, _ | ⟨c1, _ | ⟨c2, _ | ⟨c3, cs⟩⟩⟩⟩
    · rfl
    · rfl
    · rfl
    · simp at h
    · simp at h
      omega
  · intro st row
    cases row <;> rfl

/-- Witness for C4 on a concrete four-cell row. -/
theorem C4_cell_position_selection_witness :
    4 ≤ ([⟨true, some 2, "园区"⟩, ⟨false, none, "小计"⟩, ⟨false, none, "11"⟩,
        ⟨false, none, "22"⟩] : List Cell).length
    ∧ rowRecord (some "园区") [⟨true, some 2, "园区"⟩, ⟨false, none, "小计"⟩,
        ⟨false, none, "11"⟩, ⟨false, none, "22"⟩]
      = some ⟨some "园区", "小计", "11", "22"⟩ := by
  constructor
  · decide
  · have h := C4_cell_position_selection.1 (some "园区")
      [⟨true, some 2, "园区"⟩, ⟨false, none, "小计"⟩, ⟨false, none, "11"⟩,
        ⟨false, none, "22"⟩] (by decide)
    exact h.trans (by decide)

/-- C5: a leading `th` cell with `rowspan = 3` sets `current_region` to its
stripped text and `rowspan_left` to 2, and the two rows immediately
following it, carrying no region-setting header cell of their own, emit
records bearing exactly that region. -/
theorem C5_rowspan_three_covers_two_rows :
    ∀ (st : RowSpanState) (c0 : Cell) (cs : List Cell) (r1 r2 : HtmlRow),
      c0.isTh = true → c0.rowspan = some 3 →
      rowSetsRegion r1 = false → rowSetsRegion r2 = false →
      ((step st (c0 :: cs)).1.currentRegion = some c0.text
      ∧ (step st (c0 :: cs)).1.rowspanLeft = 2
      ∧ (∀ q, (step st (c0 :: cs)).2 = some q → q.region = some c0.text)
      ∧ (∀ q, (step (step st (c0 :: cs)).1 r1).2 = some q →
          q.region = some c0.text)
      ∧ (step (step st (c0 :: cs)).1 r1).1.currentRegion = some c0.text
      ∧ (∀ q, (step (step (step st (c0 :: cs)).1 r1).1 r2).2 = some q →
          q.region = some c0.text)) := by
  intro st c0 cs r1 r2 hth hspan h1 h2
  have hstep1 : (step st (c0 :: cs)).1 = ⟨some c0.text, 2⟩ := by
    simp [step, updateState, hth, hspan]
  have hr1 : (step (step st (c0 :: cs)).1 r1).1.currentRegion = some c0.text := by
    rw [step_region_of_not_sets _ r1 h1, hstep1]
  refine ⟨by rw [hstep1], by rw [hstep1], ?_, ?_, hr1, ?_⟩
  · intro q hq
    have h := step_record_region _ (c0 :: cs) q hq
    rw [hstep1] at h
    exact h
  · intro q hq
    have h := step_record_region _ r1 q hq
    rw [step_region_of_not_sets _ r1 h1, hstep1] at h
    exact h
  · intro q hq
    have h := step_record_region _ r2 q hq
    rw [step_region_of_not_sets _ r2 h2, hr1] at h
    exact h

/-- Witness for C5: a rowspan-3 header row followed by two three-cell rows. -/
theorem C5_rowspan_three_covers_two_rows_witness :
    ((⟨true, some 3, "吴中区"⟩ : Cell).isTh = true
    ∧ (⟨true, some 3, "吴中区"⟩ : Cell).rowspan = some 3
    ∧ rowSetsRegion [⟨false, none, "住宅"⟩, ⟨false, none, "1"⟩, ⟨false, none, "2"⟩] = false
    ∧ rowSetsRegion [⟨false, none, "商业"⟩, ⟨false, none, "3"⟩, ⟨false, none, "4"⟩] = false)
    ∧ ((step initState [⟨true, some 3, "吴中区"⟩, ⟨false, none, "小计"⟩,
          ⟨false, none, "5"⟩, ⟨false, none, "6"⟩]).1.currentRegion
        = some (⟨true, some 3, "吴中区"⟩ : Cell).text
    ∧ (step initState [⟨true, some 3, "吴中区"⟩, ⟨false, none, "小计"⟩,
          ⟨false, none, "5"⟩, ⟨false, none, "6"⟩]).1.rowspanLeft = 2
    ∧ (∀ q, (step initState [⟨true, some 3, "吴中区"⟩, ⟨false, none, "小计"⟩,
          ⟨false, none, "5"⟩, ⟨false, none, "6"⟩]).2 = some q →
        q.region = some (⟨true, some 3, "吴中区"⟩ : Cell).text)
    ∧ (∀ q, (step (step initState [⟨true, some 3, "吴中区"⟩, ⟨false, none, "小计"⟩,
          ⟨false, none, "5"⟩, ⟨false, none, "6"⟩]).1
          [⟨false, none, "住宅"⟩, ⟨false, none, "1"⟩, ⟨false, none, "2"⟩]).2 = some q →
        q.region = some (⟨true, some 3, "吴中区"⟩ : Cell).text)
    ∧ (step (step initState [⟨true, some 3, "吴中区"⟩, ⟨false, none, "小计"⟩,
          ⟨false, none, "5"⟩, ⟨false, none, "6"⟩]).1
          [⟨false, none, "住宅"⟩, ⟨false, none, "1"⟩, ⟨false, none, "2"⟩]).1.currentRegion
        = some (⟨true, some 3, "吴中区"⟩ : Cell).text
    ∧ (∀ q, (step (step (step initState [⟨true, some 3, "吴中区"⟩, ⟨false, none, "小计"⟩,
          ⟨false, none, "5"⟩, ⟨false, none, "6"⟩]).1
          [⟨false, none, "住宅"⟩, ⟨false, none, "1"⟩, ⟨false, none, "2"⟩]).1
          [⟨false, none, "商业"⟩, ⟨false, none, "3"⟩, ⟨false, none, "4"⟩]).2 = some q →
        q.region = some (⟨true, some 3, "吴中区"⟩ : Cell).text)) :=
  ⟨⟨rfl, rfl, rfl, rfl⟩,
    C5_rowspan_three_covers_two_rows initState ⟨true, some 3, "吴中区"⟩
      [⟨false, none, "小计"⟩, ⟨false, none, "5"⟩, ⟨false, none, "6"⟩]
      [⟨false, none, "住宅"⟩, ⟨false, none, "1"⟩, ⟨false, none, "2"⟩]
      [⟨false, none, "商业"⟩, ⟨false, none, "3"⟩, ⟨false, none, "4"⟩]
      rfl rfl rfl rfl⟩

/-- C6 counterexample: a three-cell row headed by a `th` cell carrying a
`rowspan` sets the region from that cell and also uses that same cell's
text as the emitted record's 类型 field. -/
theorem C6_counterexample :
    step initState [⟨true, some 2, "姑苏区"⟩, ⟨false, none, "10"⟩, ⟨false, none, "20"⟩]
      = (⟨some "姑苏区", 1⟩, some ⟨some "姑苏区", "姑苏区", "10", "20"⟩) := by
  decide

/-- C6 (amended): in a row of four or more cells the emitted 类型/套数/面积
never depend on the first cell — replacing that cell changes nothing — but
a row of exactly three cells uses its first cell's text as the 类型 field
even when that first cell is the region-setting header cell. -/
theorem C6_header_cell_consumption :
    (∀ (region : Option String) (c0 c0' : Cell) (cs : List Cell), 3 ≤ cs.length →
      rowRecord region (c0 :: cs) = rowRecord region (c0' :: cs))
    ∧ (∀ (region : Option String) (c0 c1 c2 : Cell),
      rowRecord region [c0, c1, c2] = some ⟨region, c0.text, c1.text, c2.text⟩) := by
  constructor
  · intro region c0 c0' cs h
    rcases cs with _ | ⟨c1, _ | ⟨c2, _ | ⟨c3, cs'⟩⟩⟩
    · simp at h
    · simp at h
    · simp at h
    · rfl
  · intro region c0 c1 c2
    rfl

/-- Witness for C6 (amended): swapping out a four-cell row's header cell
leaves the emitted record unchanged. -/
theorem C6_header_cell_consumption_witness :
    3 ≤ ([⟨false, none, "a"⟩, ⟨false, none, "b"⟩, ⟨false, none, "c"⟩] : List Cell).length
    ∧ rowRecord none (⟨true, some 2, "X"⟩
        :: [⟨false, none, "a"⟩, ⟨false, none, "b"⟩, ⟨false, none, "c"⟩])
      = rowRecord none (blankCell
        :: [⟨false, none, "a"⟩, ⟨false, none, "b"⟩, ⟨false, none, "c"⟩]) :=
  ⟨by decide, C6_header_cell_consumption.1 none ⟨true, some 2, "X"⟩ blankCell
      [⟨false, none, "a"⟩, ⟨false, none, "b"⟩, ⟨false, none, "c"⟩] (by decide)⟩

/-- C7: over a table whose rows all have exactly four cells and none of
which carries a region-setting header cell, every record emitted by the
walk from the initial state has a `None` region. -/
theorem C7_no_header_region_none :
    ∀ rows : List HtmlRow,
      (∀ r ∈ rows, r.length = 4 ∧ rowSetsRegion r = false) →
      ∀ q ∈ reconstructRows initState rows, q.region = none := by
  intro rows h q hq
  exact reconstructRows_region_const rows initState (fun r hr => (h r hr).2) q hq

/-- Witness for C7 on a concrete two-row headerless table. -/
theorem C7_no_header_region_none_witness :
    (∀ r ∈ ([[blankCell, ⟨false, none, "小计"⟩, ⟨false, none, "1"⟩, ⟨false, none, "2"⟩],
        [blankCell, ⟨false, none, "住宅"⟩, ⟨false, none, "3"⟩, ⟨false, none, "4"⟩]] :
        List HtmlRow), r.length = 4 ∧ rowSetsRegion r = false)
    ∧ (⟨none, "小计", "1", "2"⟩ : RawRecord)
        ∈ reconstructRows initState
          [[blankCell, ⟨false, none, "小计"⟩, ⟨false, none, "1"⟩, ⟨false, none, "2"⟩],
            [blankCell, ⟨false, none, "住宅"⟩, ⟨false, none, "3"⟩, ⟨false, none, "4"⟩]]
    ∧ (⟨none, "小计", "1", "2"⟩ : RawRecord).region = none :=
  ⟨by decide, by decide,
    C7_no_header_region_none
      [[blankCell, ⟨false, none, "小计"⟩, ⟨false, none, "1"⟩, ⟨false, none, "2"⟩],
        [blankCell, ⟨false, none, "住宅"⟩, ⟨false, none, "3"⟩, ⟨false, none, "4"⟩]]
      (by decide) ⟨none, "小计", "1", "2"⟩ (by decide)⟩

/-- A step never clears `current_region`: once set, it stays set. -/
theorem updateState_region_isSome (st : RowSpanState) (c0 : Cell)
    (h : st.currentRegion.isSome = true) :
    ((updateState st c0).currentRegion).isSome = true := by
  rw [updateState]
  split
  · rfl
  · split
    · exact h
    · exact h

/-- C10: `current_region` is never reset to `None` once set — each loop
iteration keeps it set — and rows lying beyond an exhausted span (span
counter already zero) and before any new header cell still emit records
carrying the most recently seen region. -/
theorem C10_region_persists_beyond_span :
    (∀ (st : RowSpanState) (row : HtmlRow),
      st.currentRegion.isSome = true → ((step st row).1.currentRegion).isSome = true)
    ∧ (∀ (r : String) (rows : List HtmlRow),
      (∀ row ∈ rows, rowSetsRegion row = false) →
      ∀ q ∈ reconstructRows ⟨some r, 0⟩ rows, q.region = some r) := by
  constructor
  · intro st row h
    cases row with
    | nil => exact h
    | cons c0 cs => exact updateState_region_isSome st c0 h
  · intro r rows hrows q hq
    exact reconstructRows_region_const rows ⟨some r, 0⟩ hrows q hq

/-- Witness for C10: with the span exhausted, a headerless three-cell row
still emits the previously seen region. -/
theorem C10_region_persists_beyond_span_witness :
    (⟨some "相城区", 0⟩ : RowSpanState).currentRegion.isSome = true
    ∧ ((step ⟨some "相城区", 0⟩
        [⟨false, none, "住宅"⟩, ⟨false, none, "7"⟩, ⟨false, none, "8"⟩]).1.currentRegion).isSome
      = true
    ∧ (∀ row ∈ ([[⟨false, none, "住宅"⟩, ⟨false, none, "7"⟩, ⟨false, none, "8"⟩]] :
        List HtmlRow), rowSetsRegion row = false)
    ∧ (⟨some "相城区", "住宅", "7", "8"⟩ : RawRecord)
        ∈ reconstructRows ⟨some "相城区", 0⟩
          [[⟨false, none, "住宅"⟩, ⟨false, none, "7"⟩, ⟨false, none, "8"⟩]]
    ∧ (⟨some "相城区", "住宅", "7", "8"⟩ : RawRecord).region = some "相城区" :=
  ⟨rfl,
    C10_region_persists_beyond_span.1 ⟨some "相城区", 0⟩
      [⟨false, none, "住宅"⟩, ⟨false, none, "7"⟩, ⟨false, none, "8"⟩] rfl,
    by decide, by decide,
    C10_region_persists_beyond_span.2 "相城区"
      [[⟨false, none, "住宅"⟩, ⟨false, none, "7"⟩, ⟨false, none, "8"⟩]]
      (by decide) ⟨some "相城区", "住宅", "7", "8"⟩ (by decide)⟩

/-! Claim theorems about the fetcher and the startup check. -/

/-- C8 counterexample: a status of 600 is not a success status, yet
`raise_for_status` raises only for `400 ≤ status < 600`, so a status-600
response whose body decodes and contains the target table yields a
non-empty record list — not every non-success status gives an empty result. -/
theorem C8_counterexample :
    (⟨600⟩ : HttpResponse).statusCode = 600
    ∧ 400 ≤ (⟨600⟩ : HttpResponse).statusCode
    ∧ fetch_web_data (.ok ⟨600⟩)
        (fun _ => .ok ⟨some [[],
          [blankCell, ⟨false, none, "小计"⟩, ⟨false, none, "1"⟩, ⟨false, none, "2"⟩]]⟩)
      = [⟨none, "小计", "1", "2"⟩] := by
  refine ⟨rfl, by decide, ?_⟩
  decide

/-- C8 (amended): a transport error, a 4xx/5xx status — the statuses for
which `raise_for_status` raises — a body-decoding failure, or a missing
target table each make `fetch_web_data` return the empty record list; no
failure escapes to the caller.  A status outside 400–599 passes as
success. -/
theorem C8_fetch_failures_yield_empty :
    ∀ (e : FetchError) (decode : HttpResponse → Except FetchError HtmlPage)
      (resp : HttpResponse) (page : HtmlPage),
      fetch_web_data (.error e) decode = []
      ∧ (400 ≤ resp.statusCode → resp.statusCode < 600 →
          fetch_web_data (.ok resp) decode = [])
      ∧ (decode resp = .error e → fetch_web_data (.ok resp) decode = [])
      ∧ (decode resp = .ok page → page.tableRows = none →
          fetch_web_data (.ok resp) decode = []) := by
  intro e decode resp page
  refine ⟨rfl, ?_, ?_, ?_⟩
  · intro h1 h2
    simp [fetch_web_data, raiseForStatus, h1, h2]
  · intro hdec
    by_cases hs : 400 ≤ resp.statusCode ∧ resp.statusCode < 600
    · simp [fetch_web_data, raiseForStatus, hs]
    · simp [fetch_web_data, raiseForStatus, hs, hdec]
  · intro hdec htab
    by_cases hs : 400 ≤ resp.statusCode ∧ resp.statusCode < 600
    · simp [fetch_web_data, raiseForStatus, hs]
    · simp [fetch_web_data, raiseForStatus, hs, hdec, htab]

/-- Witness for C8 on a concrete 404 response. -/
theorem C8_fetch_failures_yield_empty_witness :
    400 ≤ (⟨404⟩ : HttpResponse).statusCode
    ∧ (⟨404⟩ : HttpResponse).statusCode < 600
    ∧ fetch_web_data (.ok ⟨404⟩) (fun _ => .ok ⟨none⟩) = [] :=
  ⟨by decide, by decide, (C8_fetch_failures_yield_empty .transport (fun _ => .ok ⟨none⟩)
    ⟨404⟩ ⟨none⟩).2.1 (by decide) (by decide)⟩

/-- The three configuration values the script reads at startup:
`EMAIL_ACCOUNT`, `EMAIL_PASSWORD`, `RECIPIENT_EMAIL`. -/
structure Config where
  emailAccount : String
  emailPassword : String
  recipientEmail : String
deriving DecidableEq, Repr

/-- The startup failure message of the module-level configuration check. -/
def configMissingMsg : String :=
  "缺失环境变量！请在 GitHub Secrets 中设置：EMAIL_ACCOUNT, EMAIL_PASSWORD, RECIPIENT_EMAIL"

/-- The module-level check `if not all([EMAIL_ACCOUNT, EMAIL_PASSWORD,
RECIPIENT_EMAIL]): raise EnvironmentError(...)`: a variable absent from the
environment (`os.environ.get` returning `None`) or set to the empty string
is falsy and makes the check raise. -/
def loadConfig (env : String → Option String) : Except String Config :=
  match env "EMAIL_ACCOUNT", env "EMAIL_PASSWORD", env "RECIPIENT_EMAIL" with
  | some a, some p, some r =>
    if a.isEmpty || p.isEmpty || r.isEmpty then .error configMissingMsg
    else .ok ⟨a, p, r⟩
  | _, _, _ => .error configMissingMsg

/-- A network side effect of the script: the HTTP GET of the fetch, or the
SMTP submission of the report. -/
inductive NetAction where
  | httpGet (url : String)
  | smtpSend (host : String) (port : Nat) (recipient : String)
deriving DecidableEq, Repr

/-- A completed run of the script body: the network actions performed, in
order, and the processed records. -/
structure ScriptRun where
  actions : List NetAction
  output : List SummaryRecord
deriving DecidableEq, Repr

/-- The whole script (`__main__`): the module-level configuration check
runs first and a failure there raises before anything else; otherwise one
HTTP GET is performed, and only when both the raw and the processed data
are non-empty is the report mailed to the configured recipient. -/
def runScript (env : String → Option String) (transport : Except FetchError HttpResponse)
    (decode : HttpResponse → Except FetchError HtmlPage) : Except String ScriptRun :=
  match loadConfig env with
  | .error msg => .error msg
  | .ok cfg =>
    let raw := fetch_web_data transport decode
    if raw.isEmpty then
      .ok ⟨[.httpGet "http://clf.zfcjj.suzhou.gov.cn/xsinfo.aspx"], []⟩
    else
      let processed := process_data raw
      if processed.isEmpty then
        .ok ⟨[.httpGet "http://clf.zfcjj.suzhou.gov.cn/xsinfo.aspx"], processed⟩
      else
        .ok ⟨[.httpGet "http://clf.zfcjj.suzhou.gov.cn/xsinfo.aspx",
          .smtpSend "smtp.126.com" 465 cfg.recipientEmail], processed⟩

/-- C9: when any of the three required environment variables is missing,
the run halts at startup with the configuration error: no `ScriptRun` — and
with it no network action — is ever produced. -/
theorem C9_missing_config_fatal :
    ∀ (env : String → Option String) (transport : Except FetchError HttpResponse)
      (decode : HttpResponse → Except FetchError HtmlPage),
      (env "EMAIL_ACCOUNT" = none ∨ env "EMAIL_PASSWORD" = none ∨
        env "RECIPIENT_EMAIL" = none) →
      runScript env transport decode = .error configMissingMsg
      ∧ ∀ sr : ScriptRun, runScript env transport decode ≠ .ok sr := by
  intro env transport decode h
  have hcfg : loadConfig env = .error configMissingMsg := by
    rcases h with h | h | h
    · cases h2 : env "EMAIL_PASSWORD" <;> cases h3 : env "RECIPIENT_EMAIL" <;>
        simp [loadConfig, h, h2, h3]
    · cases h1 : env "EMAIL_ACCOUNT" <;> cases h3 : env "RECIPIENT_EMAIL" <;>
        simp [loadConfig, h, h1, h3]
    · cases h1 : env "EMAIL_ACCOUNT" <;> cases h2 : env "EMAIL_PASSWORD" <;>
        simp [loadConfig, h, h1, h2]
  constructor
  · rw [runScript, hcfg]
  · intro sr hsr
    rw [runScript, hcfg] at hsr
    exact Except.noConfusion hsr

/-- Witness for C9 with an empty environment. -/
theorem C9_missing_config_fatal_witness :
    ((fun _ : String => (none : Option String)) "EMAIL_ACCOUNT" = none
      ∨ (fun _ : String => (none : Option String)) "EMAIL_PASSWORD" = none
      ∨ (fun _ : String => (none : Option String)) "RECIPIENT_EMAIL" = none)
    ∧ runScript (fun _ => none) (.error .transport) (fun _ => .error .decodeFailure)
        = .error configMissingMsg
    ∧ ∀ sr : ScriptRun,
        runScript (fun _ => none) (.error .transport) (fun _ => .error .decodeFailure)
          ≠ .ok sr :=
  ⟨Or.inl rfl,
    (C9_missing_config_fatal (fun _ => none) (.error .transport)
      (fun _ => .error .decodeFailure) (Or.inl rfl)).1,
    (C9_missing_config_fatal (fun _ => none) (.error .transport)
      (fun _ => .error .decodeFailure) (Or.inl rfl)).2⟩

end Sz
